import Mathlib

/-!
Shallow embedding of the mobigic file-sharing backend (`src/app.js`).

The app is a single Express file: users register/login (bcrypt-hashed
passwords, JWT tokens), upload files behind a random 6-digit access code,
list their own files, delete them (ownership-scoped query, best-effort
blob unlink), and download by id + code.

External collaborators (bcrypt, jsonwebtoken, Math.random, Date.now,
MongoDB document ids) are modelled as explicit executable functions or
parameters; the handlers themselves are translated line by line from
`src/app.js`.
-/

namespace Mobigic

/-- A `User` document (`userSchema`, app.js:39-43): `username` and
`password` (which stores the bcrypt hash, app.js:84).  `_id` is modelled
as a `Nat` allocated by a counter. -/
structure User where
  id : Nat
  username : String
  password : String
  deriving Repr, DecidableEq

/-- A `File` document (`fileSchema`, app.js:46-53).  `code` is an
`Option String` because a Mongoose `String` field may be unset
(JS `undefined`); the upload handler always sets it (app.js:109).
`uploadedAt` is a timestamp modelled as `Nat`. -/
structure File where
  id : Nat
  filename : String
  filepath : String
  uploadedBy : Nat
  code : Option String
  uploadedAt : Nat
  deriving Repr, DecidableEq

/-- The persistent state: the two MongoDB collections, the uploads
directory of the blob store (set of file paths), and counters modelling
MongoDB `_id` allocation. -/
structure AppState where
  users : List User
  files : List File
  blobs : List String
  nextUserId : Nat
  nextFileId : Nat
  deriving Repr, DecidableEq

/-- Model of the bcrypt collaborator's `hash(plaintext, saltRounds)`:
an injective tagged encoding standing in for the salted hash. -/
def bcryptHash (plaintext : String) (saltRounds : Nat) : String :=
  "bcrypt$" ++ toString saltRounds ++ "$" ++ plaintext

/-- Model of the bcrypt collaborator's `compare(plaintext, hash)`:
true exactly when `hash` is the hash of `plaintext`. -/
def bcryptCompare (plaintext h : String) : Bool :=
  h == bcryptHash plaintext 10

/-- Model of a signed JWT: the subject claim (`{ id: user._id }`,
app.js:98) together with the signature, identified with the signing
secret since verification succeeds exactly for tokens signed with the
same secret. -/
structure Token where
  sub : Nat
  sig : String
  deriving Repr, DecidableEq

/-- Model of `jwt.sign({ id: user._id }, secret)` (app.js:98). -/
def jwtSign (userId : Nat) (secret : String) : Token :=
  ⟨userId, secret⟩

/-- Model of `jwt.verify(token, secret)` (app.js:61): returns the
decoded id when the signature matches the secret, fails otherwise. -/
def jwtVerify (t : Token) (secret : String) : Option Nat :=
  if t.sig == secret then some t.sub else none

/-- `process.env.JWT_SECRET`, modelled as a fixed server-side secret. -/
def JWT_SECRET : String := "server-secret"

/-- Failures of the JWT middleware (app.js:56-67). -/
inductive AuthError where
  | unauthorized
  | invalidToken
  deriving Repr, DecidableEq

/-- `authMiddleware` (app.js:56-67): 401 `Unauthorized` when no token is
presented, 401 `Invalid token` when verification fails, otherwise the
decoded user id is attached to the request (`req.user`). -/
def authMiddleware (tok : Option Token) : Except AuthError Nat :=
  match tok with
  | none => .error .unauthorized
  | some t =>
    match jwtVerify t JWT_SECRET with
    | some userId => .ok userId
    | none => .error .invalidToken

/-- `POST /register` (app.js:81-87): hashes the password with cost 10,
saves a new `User`, and responds `"User registered"`.  There is no
uniqueness check on `username`.  Returns the new state, the new user's
id and the response message. -/
def register (s : AppState) (username password : String) :
    AppState × Nat × String :=
  let hashed := bcryptHash password 10
  let user : User := ⟨s.nextUserId, username, hashed⟩
  ({ s with users := s.users ++ [user], nextUserId := s.nextUserId + 1 },
   s.nextUserId, "User registered")

/-- Outcome of `POST /login` (app.js:90-100). -/
inductive LoginResult where
  /-- 200 `{ token }`. -/
  | token (t : Token)
  /-- 401 `{ error: "User not found" }` (app.js:93). -/
  | userNotFound
  /-- 401 `{ error: "Invalid password" }` (app.js:96). -/
  | invalidPassword
  deriving Repr, DecidableEq

/-- `POST /login` (app.js:90-100): `User.findOne({ username })` (first
matching document), bcrypt comparison, then `jwt.sign({ id: user._id },
JWT_SECRET)`. -/
def login (s : AppState) (username password : String) : LoginResult :=
  match s.users.find? (fun u => u.username == username) with
  | none => .userNotFound
  | some user =>
    if bcryptCompare password user.password then
      .token (jwtSign user.id JWT_SECRET)
    else
      .invalidPassword

/-- The multer disk-storage filename (app.js:74-76):
`Date.now() + "-" + file.originalname`. -/
def multerFilename (now : Nat) (originalname : String) : String :=
  toString now ++ "-" ++ originalname

/-- The `File` document built by `POST /upload` (app.js:105-110). -/
def uploadedFile (s : AppState) (callerId : Nat) (originalname : String)
    (now : Nat) (code : String) : File :=
  { id := s.nextFileId
    filename := multerFilename now originalname
    filepath := "uploads/" ++ multerFilename now originalname
    uploadedBy := callerId
    code := some code
    uploadedAt := now }

/-- `Math.floor(100000 + Math.random() * 900000)` (app.js:104), with the
`Math.random()` draw `r ∈ [0,1)` passed explicitly. -/
def genCodeNat (r : ℚ) : Nat :=
  (Int.toNat ⌊(100000 : ℚ) + r * 900000⌋)

/-- JS `Number.prototype.toString()` on a natural number: its decimal
digit string. -/
def natToDecString (n : Nat) : String :=
  String.mk ((Nat.digits 10 n).reverse.map (fun d => Char.ofNat (48 + d)))

/-- The access code generated by `POST /upload` (app.js:104):
`Math.floor(100000 + Math.random() * 900000).toString()`. -/
def genCode (r : ℚ) : String :=
  natToDecString (genCodeNat r)

/-- `POST /upload` (app.js:103-113), after `authMiddleware` resolved
`callerId` and multer stored the blob: generates an access code from the
`Math.random()` draw `r`, saves the `File` document, and responds
`{ message: "File uploaded", code }`. -/
def upload (s : AppState) (callerId : Nat) (originalname : String)
    (now : Nat) (r : ℚ) : AppState × String :=
  let code := genCode r
  let file := uploadedFile s callerId originalname now code
  ({ s with files := s.files ++ [file],
            blobs := s.blobs ++ [file.filepath],
            nextFileId := s.nextFileId + 1 },
   code)

/-- `GET /files` (app.js:116-119): `File.find({ uploadedBy: req.user.id })`
— every document whose `uploadedBy` equals the caller's resolved id. -/
def getFiles (s : AppState) (callerId : Nat) : List File :=
  s.files.filter (fun f => f.uploadedBy == callerId)

/-- JSON serialisation of a full `File` document, as `res.json(files)`
(app.js:118) sends it: every schema field is included (an unset optional
field is omitted, which never happens for `code` on uploaded files). -/
def fileToJson (f : File) : List (String × String) :=
  [("_id", toString f.id),
   ("filename", f.filename),
   ("filepath", f.filepath),
   ("uploadedBy", toString f.uploadedBy)]
  ++ (match f.code with
      | some c => [("code", c)]
      | none => [])
  ++ [("uploadedAt", toString f.uploadedAt)]

/-- The response body of `GET /files` (app.js:118): the matching
documents serialised in full. -/
def getFilesResponse (s : AppState) (callerId : Nat) :
    List (List (String × String)) :=
  (getFiles s callerId).map fileToJson

/-- Outcome of `DELETE /delete/:id` (app.js:122-137). -/
inductive DeleteResult where
  /-- 200 `{ message: "File deleted" }`. -/
  | deleted
  /-- 404 `{ error: "File not found" }` (app.js:127). -/
  | notFound
  deriving Repr, DecidableEq

/-- `DELETE /delete/:id` (app.js:122-137), after `authMiddleware`
resolved `callerId`.  The lookup is
`File.findOne({ _id: req.params.id, uploadedBy: req.user.id })` — the
ownership check is part of the query.  `fs.unlinkSync` sits in a
try/catch whose catch only logs, so the blob unlink outcome
(`unlinkOk`) never changes the result: the document is deleted and the
response is success either way. -/
def deleteFile (s : AppState) (callerId fileId : Nat) (unlinkOk : Bool) :
    AppState × DeleteResult :=
  match s.files.find? (fun f => f.id == fileId && f.uploadedBy == callerId) with
  | none => (s, .notFound)
  | some file =>
    let blobs' := if unlinkOk then s.blobs.filter (fun p => p != file.filepath)
                  else s.blobs
    ({ s with files := s.files.filter (fun f => f.id != fileId),
              blobs := blobs' },
     .deleted)

/-- Outcome of `POST /download/:id` (app.js:140-147). -/
inductive DownloadResult where
  /-- `res.download(file.filepath)`: the blob at that path is streamed. -/
  | fileBytes (filepath : String)
  /-- 403 `{ error: "Invalid code" }` (app.js:144) — the single failure
  response, used both when no document has the id and when the code
  mismatches. -/
  | invalidCode
  deriving Repr, DecidableEq

/-- `POST /download/:id` (app.js:140-147): `File.findById`, then the
strict comparison `file.code !== code` where `code` is the request-body
field (absent = `none`).  No authentication. -/
def download (s : AppState) (fileId : Nat) (code : Option String) :
    DownloadResult :=
  match s.files.find? (fun f => f.id == fileId) with
  | none => .invalidCode
  | some file =>
    if file.code == code then .fileBytes file.filepath
    else .invalidCode

/-- The empty initial state (fresh database, empty uploads directory). -/
def initialState : AppState :=
  { users := [], files := [], blobs := [], nextUserId := 0, nextFileId := 0 }

/-- A concrete one-user, one-file state used to instantiate theorems. -/
def exampleState : AppState :=
  { users := [⟨0, "alice", bcryptHash "p@ss1" 10⟩]
    files := [{ id := 0, filename := "1700-a.txt",
                filepath := "uploads/1700-a.txt", uploadedBy := 0,
                code := some "482913", uploadedAt := 1700 }]
    blobs := ["uploads/1700-a.txt"]
    nextUserId := 1
    nextFileId := 1 }

/-- A state reached by registering "alice" once, with password "other". -/
def stateAliceOther : AppState := (register initialState "alice" "other").1

/-- A state reached by registering "alice" once, with password "pw1". -/
def stateAlicePw1 : AppState := (register initialState "alice" "pw1").1

/-- The concrete file document stored in `exampleState`. -/
def exampleFile : File :=
  { id := 0, filename := "1700-a.txt", filepath := "uploads/1700-a.txt",
    uploadedBy := 0, code := some "482913", uploadedAt := 1700 }

/-! ## Helper lemmas -/

lemma find?_append_of_none {α : Type} {l₁ l₂ : List α} {p : α → Bool}
    (h : l₁.find? p = none) : (l₁ ++ l₂).find? p = l₂.find? p := by
  induction l₁ with
  | nil => rfl
  | cons a t ih =>
    cases hpa : p a with
    | true => simp [List.find?_cons, hpa] at h
    | false =>
      simp only [List.cons_append, List.find?_cons, hpa] at h ⊢
      exact ih h

/-- When document ids are distinct, `findById` (modelled by `find?` on the
id) returns exactly the member with that id. -/
lemma find?_id_eq_of_mem {l : List File} (hl : (l.map File.id).Nodup)
    {fid : Nat} {f : File} (hf : f ∈ l) (hid : f.id = fid) :
    l.find? (fun g => g.id == fid) = some f := by
  induction l with
  | nil => cases hf
  | cons a t ih =>
    simp only [List.map_cons, List.nodup_cons] at hl
    rcases List.mem_cons.mp hf with rfl | hft
    · simp [List.find?_cons, hid]
    · have ha : (a.id == fid) = false := by
        simp only [beq_eq_false_iff_ne, ne_eq]
        intro h
        have hmem : f.id ∈ t.map File.id := List.mem_map_of_mem File.id hft
        rw [hid, ← h] at hmem
        exact hl.1 hmem
      simpa [List.find?_cons, ha] using ih hl.2 hft

lemma natToDecString_length {n : Nat} (h1 : 100000 ≤ n) (h2 : n < 1000000) :
    (natToDecString n).length = 6 := by
  have e5 : (10 : ℕ) ^ 5 = 100000 := by norm_num
  have e6 : (10 : ℕ) ^ (5 + 1) = 1000000 := by norm_num
  have hlog : Nat.log 10 n = 5 :=
    Nat.log_eq_of_pow_le_of_lt_pow (e5 ▸ h1) (e6 ▸ h2)
  have hlen : (natToDecString n).length = (Nat.digits 10 n).length := by
    simp [natToDecString, String.length]
  rw [hlen, Nat.digits_len 10 n (by norm_num) (by omega), hlog]

lemma natToDecString_isDigit {n : Nat} (ch : Char)
    (hch : ch ∈ (natToDecString n).data) : ch.isDigit := by
  simp only [natToDecString] at hch
  rcases List.mem_map.mp (by simpa using hch) with ⟨d, hd, rfl⟩
  have hd10 : d < 10 := Nat.digits_lt_base (by norm_num) hd
  interval_cases d <;> decide

/-! ## Claims -/

/-- **C1.** `download(file_id, code)` succeeds (streams the blob) iff some
stored file has that id and its stored access code equals the supplied
code; both when no file has the id and when the code mismatches, the
handler returns the one `invalidCode` failure (app.js:143-144). -/
theorem C1_download_succeeds_iff_code_matches (s : AppState) (fid : Nat)
    (c : String) (hids : (s.files.map File.id).Nodup) :
    ((∃ f ∈ s.files, f.id = fid ∧ f.code = some c) ↔
      (∃ p, download s fid (some c) = .fileBytes p)) ∧
    ((∀ f ∈ s.files, f.id ≠ fid) → download s fid (some c) = .invalidCode) ∧
    (∀ f ∈ s.files, f.id = fid → f.code ≠ some c →
      download s fid (some c) = .invalidCode) := by
  cases h : s.files.find? (fun g => g.id == fid) with
  | none =>
    have hnone := List.find?_eq_none.mp h
    have hd : download s fid (some c) = .invalidCode := by
      simp [download, h]
    rw [hd]
    refine ⟨⟨?_, ?_⟩, fun _ => rfl, fun _ _ _ _ => rfl⟩
    · rintro ⟨f, hf, hid, -⟩
      have := hnone f hf
      simp [hid] at this
    · rintro ⟨p, hp⟩
      cases hp
  | some f =>
    have hfmem : f ∈ s.files := List.mem_of_find?_eq_some h
    have hfid : f.id = fid := by simpa [beq_iff_eq] using List.find?_some h
    by_cases hc : f.code = some c
    · have hd : download s fid (some c) = .fileBytes f.filepath := by
        simp [download, h, hc]
      rw [hd]
      refine ⟨⟨fun _ => ⟨f.filepath, rfl⟩, fun _ => ⟨f, hfmem, hfid, hc⟩⟩,
        fun hno => absurd hfid (hno f hfmem), fun g hg hgid hgc => ?_⟩
      have hfind : s.files.find? (fun x => x.id == fid) = some g :=
        find?_id_eq_of_mem hids hg hgid
      rw [h] at hfind
      cases hfind
      exact absurd hc hgc
    · have hd : download s fid (some c) = .invalidCode := by
        simp [download, h, hc]
      rw [hd]
      refine ⟨⟨?_, ?_⟩, fun _ => rfl, fun _ _ _ _ => rfl⟩
      · rintro ⟨g, hg, hgid, hgc⟩
        have hfind : s.files.find? (fun x => x.id == fid) = some g :=
          find?_id_eq_of_mem hids hg hgid
        rw [h] at hfind
        cases hfind
        exact absurd hgc hc
      · rintro ⟨p, hp⟩
        cases hp

/-- Witness for C1 at a concrete state. -/
theorem C1_download_succeeds_iff_code_matches_witness :
    ((∃ f ∈ exampleState.files, f.id = 0 ∧ f.code = some "482913") ↔
      (∃ p, download exampleState 0 (some "482913") = .fileBytes p)) ∧
    ((∀ f ∈ exampleState.files, f.id ≠ 0) →
      download exampleState 0 (some "482913") = .invalidCode) ∧
    (∀ f ∈ exampleState.files, f.id = 0 → f.code ≠ some "482913" →
      download exampleState 0 (some "482913") = .invalidCode) :=
  C1_download_succeeds_iff_code_matches exampleState 0 "482913" (by decide)

/-- **C7.** Every generated access code is a 6-digit numeric string whose
integer value lies in `[100000, 999999]`, for every `Math.random()` draw
`r ∈ [0, 1)` (app.js:104). -/
theorem C7_genCode_six_digits (r : ℚ) (h0 : 0 ≤ r) (h1 : r < 1) :
    100000 ≤ genCodeNat r ∧ genCodeNat r ≤ 999999 ∧
    (genCode r).length = 6 ∧ ∀ ch ∈ (genCode r).data, ch.isDigit := by
  have lb : (100000 : ℤ) ≤ ⌊(100000 : ℚ) + r * 900000⌋ := by
    rw [Int.le_floor]
    push_cast
    nlinarith
  have ub : ⌊(100000 : ℚ) + r * 900000⌋ < 1000000 := by
    rw [Int.floor_lt]
    push_cast
    nlinarith
  have hn1 : 100000 ≤ genCodeNat r := by unfold genCodeNat; omega
  have hn2 : genCodeNat r < 1000000 := by unfold genCodeNat; omega
  exact ⟨hn1, by omega, natToDecString_length hn1 hn2,
    fun ch hch => natToDecString_isDigit ch hch⟩

/-- Witness for C7 at the draw `r = 0`. -/
theorem C7_genCode_six_digits_witness :
    100000 ≤ genCodeNat 0 ∧ genCodeNat 0 ≤ 999999 ∧
    (genCode 0).length = 6 ∧ ∀ ch ∈ (genCode 0).data, ch.isDigit :=
  C7_genCode_six_digits 0 (le_refl 0) zero_lt_one

/-- **C2 counterexample.** Because `register` never checks uniqueness
(app.js:81-87) and `login` takes the *first* user matching the username
(app.js:92), register-then-login with the same credentials can fail: in
the reachable state where "alice" is already registered with password
"other", registering ("alice", "p@ss1") and then logging in with those
very credentials yields `invalidPassword`, not a token. -/
theorem C2_register_login_counterexample :
    login (register stateAliceOther "alice" "p@ss1").1 "alice" "p@ss1"
      = .invalidPassword := by
  decide

/-- **C2 (amended).** Provided no already-stored user has the username —
in particular from a fresh database — `register(username, password)`
followed by `login(username, password)` succeeds, and the issued token
verifies (against the server secret) to exactly the user id that
`register` created. -/
theorem C2_register_then_login_roundtrip (s : AppState)
    (username password : String)
    (hfresh : ∀ u ∈ s.users, u.username ≠ username) :
    login (register s username password).1 username password
      = .token (jwtSign (register s username password).2.1 JWT_SECRET) ∧
    jwtVerify (jwtSign (register s username password).2.1 JWT_SECRET)
      JWT_SECRET = some (register s username password).2.1 := by
  have hnone : s.users.find? (fun u => u.username == username) = none :=
    List.find?_eq_none.mpr (fun u hu => by simpa using hfresh u hu)
  refine ⟨?_, by simp [jwtVerify, jwtSign]⟩
  simp [login, register, bcryptCompare, jwtSign, hnone]

/-- Witness for C2 (amended) from the empty database. -/
theorem C2_register_then_login_roundtrip_witness :
    login (register initialState "alice" "p@ss1").1 "alice" "p@ss1"
      = .token (jwtSign (register initialState "alice" "p@ss1").2.1
          JWT_SECRET) ∧
    jwtVerify (jwtSign (register initialState "alice" "p@ss1").2.1
        JWT_SECRET) JWT_SECRET
      = some (register initialState "alice" "p@ss1").2.1 :=
  C2_register_then_login_roundtrip initialState "alice" "p@ss1"
    (by decide)

/-- **C3.** After user `a` uploads a file, the new document is in `a`'s
listing, is not in the listing of any other user `b ≠ a`, and a listing
contains a document exactly when it is stored and owned by the caller
(app.js:103-119). -/
theorem C3_listing_owner_scoped (s : AppState) (a : Nat) (name : String)
    (now : Nat) (r : ℚ) (b : Nat) (hab : b ≠ a) (u : Nat) (f : File) :
    uploadedFile s a name now (genCode r)
      ∈ getFiles (upload s a name now r).1 a ∧
    uploadedFile s a name now (genCode r)
      ∉ getFiles (upload s a name now r).1 b ∧
    (f ∈ getFiles (upload s a name now r).1 u ↔
      f ∈ (upload s a name now r).1.files ∧ f.uploadedBy = u) := by
  refine ⟨?_, ?_, ?_⟩
  · simp [getFiles, upload, List.mem_filter, uploadedFile]
  · intro hmem
    have := (List.mem_filter.mp hmem).2
    simp [uploadedFile] at this
    exact hab this.symm
  · simp [getFiles, List.mem_filter]

/-- Witness for C3 at concrete users 0 and 1. -/
theorem C3_listing_owner_scoped_witness :
    uploadedFile initialState 0 "a.txt" 1700 (genCode 0)
      ∈ getFiles (upload initialState 0 "a.txt" 1700 0).1 0 ∧
    uploadedFile initialState 0 "a.txt" 1700 (genCode 0)
      ∉ getFiles (upload initialState 0 "a.txt" 1700 0).1 1 ∧
    (exampleFile ∈ getFiles (upload initialState 0 "a.txt" 1700 0).1 1 ↔
      exampleFile ∈ (upload initialState 0 "a.txt" 1700 0).1.files ∧
        exampleFile.uploadedBy = 1) :=
  C3_listing_owner_scoped initialState 0 "a.txt" 1700 0 1 (by decide) 1
    exampleFile

/-- **C4 counterexample.** A second `register` with an already-taken
username does not fail: it also answers "User registered" and stores a
second user document (app.js:81-87 has no uniqueness check). -/
theorem C4_duplicate_register_counterexample :
    (∃ u ∈ stateAlicePw1.users, u.username = "alice") ∧
    (register stateAlicePw1 "alice" "pw2").2.2 = "User registered" ∧
    (register stateAlicePw1 "alice" "pw2").1.users.length = 2 := by
  decide

/-- **C4 (amended).** A second `register` with an already-registered
username succeeds with the same "User registered" response, appends a
second user document, and leaves the store with more than one user
carrying that username. -/
theorem C4_duplicate_register_succeeds (s : AppState)
    (username password : String)
    (hdup : ∃ u ∈ s.users, u.username = username) :
    (register s username password).2.2 = "User registered" ∧
    (register s username password).1.users.length = s.users.length + 1 ∧
    1 < ((register s username password).1.users.filter
          (fun u => u.username == username)).length := by
  rcases hdup with ⟨u, hu, huname⟩
  refine ⟨rfl, by simp [register], ?_⟩
  have humem : u ∈ s.users.filter (fun v => v.username == username) :=
    List.mem_filter.mpr ⟨hu, by simp [huname]⟩
  have hpos : 0 < (s.users.filter (fun v => v.username == username)).length :=
    List.length_pos_of_mem humem
  have hfilter : (register s username password).1.users.filter
      (fun v => v.username == username)
      = s.users.filter (fun v => v.username == username)
        ++ [⟨s.nextUserId, username, bcryptHash password 10⟩] := by
    simp [register, List.filter_append]
  rw [hfilter, List.length_append]
  simp only [List.length_singleton]
  omega

/-- Witness for C4 (amended) in the reachable one-user state. -/
theorem C4_duplicate_register_succeeds_witness :
    (register stateAlicePw1 "alice" "pw2").2.2 = "User registered" ∧
    (register stateAlicePw1 "alice" "pw2").1.users.length
      = stateAlicePw1.users.length + 1 ∧
    1 < ((register stateAlicePw1 "alice" "pw2").1.users.filter
          (fun u => u.username == "alice")).length :=
  C4_duplicate_register_succeeds stateAlicePw1 "alice" "pw2" (by decide)

/-- **C5 counterexample.** A failed login does reveal whether the
username exists: an unknown username yields the "User not found" failure
(app.js:93) while a wrong password for an existing user yields the
distinct "Invalid password" failure (app.js:96). -/
theorem C5_login_errors_counterexample :
    login exampleState "bob" "p@ss1" = .userNotFound ∧
    login exampleState "alice" "wrong" = .invalidPassword ∧
    LoginResult.userNotFound ≠ LoginResult.invalidPassword := by
  decide

/-- **C5 (amended).** The two login failures are distinguishable: when no
stored user has username `nameA`, login answers `userNotFound`; when the
first stored user with username `nameB` exists but the password hash
comparison fails, login answers `invalidPassword`; and the two failure
results differ. -/
theorem C5_login_failures_distinguish (s : AppState)
    (nameA nameB pw : String)
    (hA : ∀ u ∈ s.users, u.username ≠ nameA) (v : User)
    (hB : s.users.find? (fun u => u.username == nameB) = some v)
    (hpw : bcryptCompare pw v.password = false) :
    login s nameA pw = .userNotFound ∧
    login s nameB pw = .invalidPassword ∧
    login s nameA pw ≠ login s nameB pw := by
  have h1 : login s nameA pw = .userNotFound := by
    have hnone : s.users.find? (fun u => u.username == nameA) = none :=
      List.find?_eq_none.mpr (fun u hu => by simpa using hA u hu)
    simp [login, hnone]
  have h2 : login s nameB pw = .invalidPassword := by
    simp [login, hB, hpw]
  refine ⟨h1, h2, ?_⟩
  rw [h1, h2]
  simp

/-- Witness for C5 (amended) at the concrete one-user state. -/
theorem C5_login_failures_distinguish_witness :
    login exampleState "bob" "wrong" = .userNotFound ∧
    login exampleState "alice" "wrong" = .invalidPassword ∧
    login exampleState "bob" "wrong" ≠ login exampleState "alice" "wrong" :=
  C5_login_failures_distinguish exampleState "bob" "alice" "wrong"
    (by decide) ⟨0, "alice", bcryptHash "p@ss1" 10⟩ (by decide) (by decide)

/-- **C6 counterexample.** The `GET /files` response serialises the full
documents: the concrete response entry contains the `code` and
`filepath` fields, and its key sequence is not `[_id, filename,
uploadedAt]`. -/
theorem C6_listing_shape_counterexample :
    getFilesResponse exampleState 0 = [fileToJson exampleFile] ∧
    ("code", "482913") ∈ fileToJson exampleFile ∧
    ("filepath", "uploads/1700-a.txt") ∈ fileToJson exampleFile ∧
    (fileToJson exampleFile).map Prod.fst
      ≠ ["_id", "filename", "uploadedAt"] := by
  decide

/-- **C6 (amended).** Every entry of the list-files response is the full
serialised document: for each listed file it contains the storage
location, and the access code whenever the stored `code` field is set —
as it is for every uploaded file. -/
theorem C6_listing_exposes_code_and_path (s : AppState) (callerId : Nat)
    (f : File) (hf : f ∈ getFiles s callerId) (c : String)
    (hc : f.code = some c) :
    fileToJson f ∈ getFilesResponse s callerId ∧
    ("filepath", f.filepath) ∈ fileToJson f ∧
    ("code", c) ∈ fileToJson f := by
  refine ⟨List.mem_map_of_mem fileToJson hf, ?_, ?_⟩ <;>
    simp [fileToJson, hc]

/-- Witness for C6 (amended) at the concrete one-file state. -/
theorem C6_listing_exposes_code_and_path_witness :
    fileToJson exampleFile ∈ getFilesResponse exampleState 0 ∧
    ("filepath", exampleFile.filepath) ∈ fileToJson exampleFile ∧
    ("code", "482913") ∈ fileToJson exampleFile :=
  C6_listing_exposes_code_and_path exampleState 0 exampleFile (by decide)
    "482913" (by decide)

/-- **C8.** When no stored file both has the requested id and is owned by
the caller — a foreign file and a nonexistent id alike — `DELETE
/delete/:id` answers `notFound` and returns the state untouched
(documents and blobs), for every blob-unlink outcome: the ownership
check is inside the lookup query (app.js:123-127). -/
theorem C8_delete_foreign_not_found (s : AppState) (a fid : Nat)
    (unlinkOk : Bool)
    (hforeign : ∀ f ∈ s.files, f.id = fid → f.uploadedBy ≠ a) :
    deleteFile s a fid unlinkOk = (s, .notFound) := by
  have hnone : s.files.find?
      (fun f => f.id == fid && f.uploadedBy == a) = none := by
    apply List.find?_eq_none.mpr
    intro f hf
    simp only [Bool.and_eq_true, beq_iff_eq, not_and]
    exact fun h1 h2 => hforeign f hf h1 h2
  simp [deleteFile, hnone]

/-- Witness for C8: caller 1 deleting user 0's file. -/
theorem C8_delete_foreign_not_found_witness :
    deleteFile exampleState 1 0 true = (exampleState, .notFound) :=
  C8_delete_foreign_not_found exampleState 1 0 true (by decide)

/-- **C9.** When the caller does own a file with the requested id, the
blob-unlink outcome never changes the result: for either outcome the
document is removed from the store and the handler reports success
(app.js:129-136 swallows the unlink error). -/
theorem C9_blob_failure_does_not_abort (s : AppState) (a fid : Nat)
    (unlinkOk : Bool)
    (hown : ∃ f ∈ s.files, f.id = fid ∧ f.uploadedBy = a) :
    (deleteFile s a fid unlinkOk).2 = .deleted ∧
    (deleteFile s a fid unlinkOk).1.files
      = s.files.filter (fun f => f.id != fid) ∧
    (deleteFile s a fid unlinkOk).1.files
      = (deleteFile s a fid (!unlinkOk)).1.files := by
  cases hfind : s.files.find? (fun f => f.id == fid && f.uploadedBy == a) with
  | none =>
    exfalso
    rcases hown with ⟨f, hf, h1, h2⟩
    have := List.find?_eq_none.mp hfind f hf
    simp [h1, h2] at this
  | some f =>
    simp [deleteFile, hfind]

/-- Witness for C9: the owner deletes their file while the unlink fails. -/
theorem C9_blob_failure_does_not_abort_witness :
    (deleteFile exampleState 0 0 false).2 = .deleted ∧
    (deleteFile exampleState 0 0 false).1.files
      = exampleState.files.filter (fun f => f.id != 0) ∧
    (deleteFile exampleState 0 0 false).1.files
      = (deleteFile exampleState 0 0 (!false)).1.files :=
  C9_blob_failure_does_not_abort exampleState 0 0 false (by decide)

/-- **C10.** Whenever every stored file has its `code` field set — which
is the case for every file created by `upload` (app.js:104-110) — a
download request whose body carries no `code` field fails with the
invalid-code error: the strict comparison `file.code !== code` never
equates an absent value with a stored string (app.js:141-144). -/
theorem C10_download_absent_code_fails (s : AppState) (fid : Nat)
    (hcodes : ∀ f ∈ s.files, f.code.isSome) :
    download s fid none = .invalidCode := by
  cases hfind : s.files.find? (fun f => f.id == fid) with
  | none => simp [download, hfind]
  | some f =>
    have hmem : f ∈ s.files := List.mem_of_find?_eq_some hfind
    rcases Option.isSome_iff_exists.mp (hcodes f hmem) with ⟨c, hc⟩
    simp [download, hfind, hc]

/-- Witness for C10 at the concrete one-file state. -/
theorem C10_download_absent_code_fails_witness :
    download exampleState 0 none = .invalidCode :=
  C10_download_absent_code_fails exampleState 0 (by decide)

end Mobigic
